import Mathlib

/-!
Verification of the GA4 MCP server's GTM→GA4 validation engine, GTM export
parser, credential resolver and client cache, as a shallow embedding of the
TypeScript source (`src/tools/gtm-validator` module and `src/utils/auth.ts`).

JavaScript conventions modelled explicitly:
* truthiness of an optional string (`undefined` and `""` are falsy),
* truthiness of an optional number (`undefined` and `0` are falsy),
* `x || d` default expressions.

External effects (GA4 API responses, environment variables, the filesystem)
are passed in as explicit data, so every function here is the pure core of
the corresponding source function.
-/

namespace GA4MCP

/-- JS truthiness for an optional string: `undefined` and `""` are falsy. -/
def truthyS : Option String → Bool
  | some s => s ≠ ""
  | none => false

/-- JS truthiness for an optional integer: `undefined` and `0` are falsy. -/
def truthyN : Option Int → Bool
  | some n => n ≠ 0
  | none => false

/-- JS `a || b` on optional strings (first operand when truthy, else second). -/
def orTruthyS (a b : Option String) : Option String :=
  if truthyS a then a else b

/-- Character-list version of the starts-with test (used instead of
`String.startsWith` so that concrete runs reduce inside the kernel). -/
def startsWithChars : List Char → List Char → Bool
  | [], _ => true
  | _ :: _, [] => false
  | p :: ps, c :: cs => p == c && startsWithChars ps cs

/-- JS `s.startsWith(pre)`. -/
def strStartsWith (s pre : String) : Bool :=
  startsWithChars pre.data s.data

/-- JS `s.endsWith(suf)`. -/
def strEndsWith (s suf : String) : Bool :=
  startsWithChars suf.data.reverse s.data.reverse

/-- Drop the first `n` characters of a string. -/
def strDropChars (s : String) (n : Nat) : String :=
  String.mk (s.data.drop n)

/-! ## Validation engine (`validateGTMParameters`) -/

/-- `GTMEventConfig` from the validator module: one event with the parameter
names GTM sends for it. -/
structure GTMEventConfig where
  eventName : String
  parameters : List String
deriving DecidableEq

/-- The status of one `(event, parameter)` pairing. -/
inductive VStatus where
  | collected
  | not_collected
  | not_registered
deriving DecidableEq

/-- `ValidationResult`: one record per `(event, parameter)` pair.  The
human-readable `message` string of the source is presentation-only and is
not modelled. -/
structure ValidationResult where
  eventName : String
  parameter : String
  status : VStatus
  count : Option Int
deriving DecidableEq

/-- One dimension record of the `getMetadata` response (the fields the
validator reads). -/
structure DimensionMeta where
  customDefinition : Bool
  apiName : Option String
deriving DecidableEq

/-- One row of a `runReport` response, already shaped the way the source
reads it: `dimensionValues[i].value` (an optional string) and
`metricValues[0].value` run through `parseInt` (an optional integer; numeric
parsing itself is outside the model). -/
structure ReportRow where
  dimensionValues : List (Option String)
  metricValues : List (Option Int)
deriving DecidableEq

/-- `ValidationSummary` (the `recommendations` strings of the source are
presentation-only and not modelled). -/
structure ValidationSummary where
  totalEvents : Nat
  totalParameters : Nat
  collected : Nat
  notCollected : Nat
  notRegistered : Nat
  details : List ValidationResult
  apiCalls : Nat
deriving DecidableEq

/-- The regex `^customEvent:(.+)$` of the source: the capture group is the
non-empty remainder after the `customEvent:` literal. -/
def customEventSuffix (s : String) : Option String :=
  if strStartsWith s "customEvent:" then
    let rest := strDropChars s 12
    if rest = "" then none else some rest
  else none

/-- `Set.add` with JS insertion order: append when not yet present. -/
def addUnique (l : List String) (s : String) : List String :=
  if s ∈ l then l else l ++ [s]

/-- Step 1 of `validateGTMParameters`: the set of registered custom-event
dimension names, from dimensions with `customDefinition` set and an
`apiName` matching `^customEvent:(.+)$` (insertion-ordered, deduplicated,
as a JS `Set`). -/
def registeredDimensionsOf (dims : List DimensionMeta) : List String :=
  dims.foldl
    (fun acc dim =>
      if dim.customDefinition && truthyS dim.apiName then
        match customEventSuffix (dim.apiName.getD "") with
        | some p => addUnique acc p
        | none => acc
      else acc)
    []

/-- Step 2 of `validateGTMParameters`: the `allParameters` set — every
parameter name of every event, deduplicated in insertion order. -/
def allParametersOf (events : List GTMEventConfig) : List String :=
  events.foldl (fun acc e => e.parameters.foldl addUnique acc) []

/-- The inner row loop of step 3: build `parameterData[param]` as a count
table over event names, adding `count` for rows whose parameter value is
truthy, not the `"(not set)"` sentinel, and whose count is positive.
Absent entries and the JS `|| 0` default coincide in the total function. -/
def aggregateRows (rows : List ReportRow) : String → Int :=
  rows.foldl
    (fun tbl row =>
      let eventName := ((row.dimensionValues.get? 0).join).getD ""
      let paramValue := ((row.dimensionValues.get? 1).join).getD ""
      let count := ((row.metricValues.get? 0).join).getD 0
      if paramValue ≠ "" ∧ paramValue ≠ "(not set)" ∧ 0 < count then
        fun e => if e = eventName then tbl e + count else tbl e
      else tbl)
    (fun _ => 0)

/-- Accumulator of the step-3 query loop: the `parameterData` record and the
`apiCalls` counter (the counter starts at 0 here; the metadata call adds
its 1 in `validateGTMParameters`). -/
structure Step3Result where
  parameterData : String → Option (String → Int)
  apiCalls : Nat

/-- The step-3 loop of `validateGTMParameters`: for each registered
parameter run one report query; on success increment `apiCalls` and store
the aggregated rows, on failure (`catch`) log and continue with the
accumulator unchanged. -/
def step3Aux (query : String → Except Unit (List ReportRow)) :
    Step3Result → List String → Step3Result
  | acc, [] => acc
  | acc, param :: rest =>
    match query param with
    | .ok rows =>
        step3Aux query
          ⟨fun p => if p = param then some (aggregateRows rows) else acc.parameterData p,
           acc.apiCalls + 1⟩ rest
    | .error _ => step3Aux query acc rest

/-- Step 3 of `validateGTMParameters`, starting from the empty
`parameterData` record and a zero call counter. -/
def step3 (query : String → Except Unit (List ReportRow)) (params : List String) :
    Step3Result :=
  step3Aux query ⟨fun _ => none, 0⟩ params

/-- The count lookup of step 4:
`parameterData[param]?.[event.eventName] || 0`. -/
def observedCount (parameterData : String → Option (String → Int))
    (param eventName : String) : Int :=
  match parameterData param with
  | some tbl => tbl eventName
  | none => 0

/-- Step 4 of `validateGTMParameters`, for one `(event, parameter)` pair:
`not_registered` when the parameter is not a registered dimension, else
`collected` with the looked-up count when positive, else `not_collected`
with count 0. -/
def classifyPair (registeredDims : List String)
    (parameterData : String → Option (String → Int))
    (eventName param : String) : ValidationResult :=
  if param ∉ registeredDims then
    ⟨eventName, param, .not_registered, none⟩
  else
    let count := observedCount parameterData param eventName
    if 0 < count then ⟨eventName, param, .collected, some count⟩
    else ⟨eventName, param, .not_collected, some 0⟩

/-- The pure core of `validateGTMParameters`.  `dims` is the dimension list
of the metadata response (1 API call), `query` maps a registered parameter
name to its report outcome (`.error` models the per-parameter `catch`).
The nested result-push loop of the source is the flattened map below, and
its three `++` counters are the corresponding counts over that list. -/
def validateGTMParameters (dims : List DimensionMeta)
    (gtmEvents : List GTMEventConfig)
    (query : String → Except Unit (List ReportRow)) : ValidationSummary :=
  let registeredDims := registeredDimensionsOf dims
  let allParameters := allParametersOf gtmEvents
  let registeredParams := allParameters.filter (fun p => p ∈ registeredDims)
  let s3 := step3 query registeredParams
  let details := gtmEvents.flatMap
    (fun e => e.parameters.map (classifyPair registeredDims s3.parameterData e.eventName))
  { totalEvents := gtmEvents.length
    totalParameters := allParameters.length
    collected := details.countP (fun r => r.status = VStatus.collected)
    notCollected := details.countP (fun r => r.status = VStatus.not_collected)
    notRegistered := details.countP (fun r => r.status = VStatus.not_registered)
    details := details
    apiCalls := 1 + s3.apiCalls }

/-! ## GTM export parsing (`parseGTMExport`) -/

/-- One `{key, value}` entry of a `map` array in a GTM tag parameter. -/
structure MapKV where
  key : String
  value : Option String
deriving DecidableEq

/-- One entry of a tag parameter's `list` array (only its `map` is read). -/
structure MapEntry where
  map : Option (List MapKV)
deriving DecidableEq

/-- One entry of a tag's `parameter` array. -/
structure TagParam where
  key : String
  value : Option String
  list : Option (List MapEntry)
deriving DecidableEq

/-- A GTM tag, restricted to the fields `parseGTMExport` reads. -/
structure Tag where
  type : String
  name : Option String
  parameter : Option (List TagParam)
deriving DecidableEq

/-- `parameters?.find(p => p.key === k)`. -/
def findParam (ps : Option (List TagParam)) (k : String) : Option TagParam :=
  ps.bind (fun l => l.find? (fun p => p.key = k))

/-- One of the three parameter-name collection loops of `parseGTMExport`:
walk `cfg?.list`, look in each entry's `map` for the entry keyed `mapKey`,
and keep its value when truthy and not a `{{...}}` variable reference.
(An absent `list` skips the loop; an empty JS array is truthy and loops
zero times — both yield `[]` here.) -/
def listParamNames (cfg : Option TagParam) (mapKey : String) : List String :=
  match cfg.bind (fun c => c.list) with
  | none => []
  | some l =>
    l.foldl
      (fun acc entry =>
        match (entry.map.bind (fun m => m.find? (fun kv => kv.key = mapKey))).bind
            (fun kv => kv.value) with
        | some paramName =>
          if paramName ≠ "" ∧ ¬ strStartsWith paramName "\x7b\x7b" then acc ++ [paramName]
          else acc
        | none => acc)
      []

/-- Case-insensitively strip the literal `pat` from the front of `cs`. -/
def stripLitCI : List Char → List Char → Option (List Char)
  | [], cs => some cs
  | _ :: _, [] => none
  | p :: ps, c :: cs => if p.toLower = c.toLower then stripLitCI ps cs else none

/-- Try the tag-name convention at the current position: `GA4`, optional
spaces, `-`, optional spaces, `Basic Event` or `Ecommerce` (the regex
alternation, in order), optional spaces, `-`, optional spaces, then a
non-empty greedy capture `(.+)` taken to the end of the name. -/
def tryConventionAt (cs : List Char) : Option (List Char) :=
  match stripLitCI "GA4".toList cs with
  | none => none
  | some cs1 =>
    let cs2 := cs1.dropWhile Char.isWhitespace
    match cs2 with
    | '-' :: cs3 =>
      let cs4 := cs3.dropWhile Char.isWhitespace
      let afterKind := match stripLitCI "Basic Event".toList cs4 with
        | some r => some r
        | none => stripLitCI "Ecommerce".toList cs4
      match afterKind with
      | none => none
      | some cs5 =>
        let cs6 := cs5.dropWhile Char.isWhitespace
        match cs6 with
        | '-' :: cs7 =>
          let rest := cs7.dropWhile Char.isWhitespace
          if rest = [] then none else some rest
        | _ => none
    | _ => none

/-- The unanchored, case-insensitive regex search of
`/(?:GA4\s*-\s*(?:Basic Event|Ecommerce)\s*-\s*)(.+)/i`: try the
convention at each start position, leftmost match wins, and return the
capture group.  (Tag names are assumed newline-free, so the `.` /
end-of-line subtleties of the JS regex do not arise.) -/
def matchConvention : List Char → Option (List Char)
  | [] => none
  | c :: cs =>
    match tryConventionAt (c :: cs) with
    | some captured => some captured
    | none => matchConvention cs

/-- `.replace(/\s+/g, "_")`: collapse each maximal whitespace run into one
underscore.  The flag records whether the previous character was
whitespace. -/
def collapseWsAux : Bool → List Char → List Char
  | _, [] => []
  | prevWs, c :: cs =>
    if c.isWhitespace then
      if prevWs then collapseWsAux true cs
      else '_' :: collapseWsAux true cs
    else c :: collapseWsAux false cs

/-- `match[1].toLowerCase().replace(/\s+/g, "_")` applied to the captured
suffix of the tag name. -/
def recoverFromTagName (tagName : String) : Option String :=
  (matchConvention tagName.toList).map
    (fun cs => String.mk (collapseWsAux false (cs.map Char.toLower)))

/-- The `eventName` value of a tag: `eventNameParam?.value || ""`. -/
def eventNameValue (t : Tag) : String :=
  ((findParam t.parameter "eventName").bind (fun p => p.value)).getD ""

/-- The parameter names collected for one tag, from the three encodings in
source order: `eventParameters` (keyed `name`), `eventSettingsTable`
(keyed `parameter`), `userProperties` (keyed `name`). -/
def extractedParams (t : Tag) : List String :=
  listParamNames (findParam t.parameter "eventParameters") "name"
    ++ listParamNames (findParam t.parameter "eventSettingsTable") "parameter"
    ++ listParamNames (findParam t.parameter "userProperties") "name"

/-- The loop body of `parseGTMExport` for one tag: only `gaawe` (GA4 event)
tags are considered; a `{{...}}` event-name value triggers the tag-name
recovery attempt (on regex failure the value is left as is); the config is
pushed only when the resulting name is truthy and at least one parameter
was collected. -/
def processTag (t : Tag) : Option GTMEventConfig :=
  if t.type = "gaawe" then
    let eventName0 := eventNameValue t
    let eventName :=
      if strStartsWith eventName0 "\x7b\x7b" ∧ strEndsWith eventName0 "\x7d\x7d" then
        match recoverFromTagName (t.name.getD "") with
        | some recovered => recovered
        | none => eventName0
      else eventName0
    let eventParams := extractedParams t
    if eventName ≠ "" ∧ eventParams ≠ [] then
      some ⟨eventName, eventParams⟩
    else none
  else none

/-- The pure core of `parseGTMExport`: the for-loop with conditional push
over the container's tag array (the `containerVersion || root` unwrapping
and the `tag || []` default are JSON plumbing outside the model). -/
def parseGTMExport (tags : List Tag) : List GTMEventConfig :=
  tags.filterMap processTag

/-! ## Credential resolution (`auth.ts`)

Environment variables and credential files are passed in as a `World`
value.  A file (or the inline service-account JSON variable) is `absent`
(unset / missing), `invalid` (present but `JSON.parse` throws), or
`parsed` with the optional fields the readers inspect. -/

/-- The fields of a parsed credential/token JSON document that the source's
readers inspect (any other fields are irrelevant to resolution). -/
structure JsonCreds where
  access_token : Option String
  refresh_token : Option String
  client_id : Option String
  client_secret : Option String
  expiry_date : Option Int
  type : Option String
  client_email : Option String
  private_key : Option String
deriving DecidableEq

/-- State of one credential source document. -/
inductive FileState where
  | absent
  | invalid
  | parsed (j : JsonCreds)
deriving DecidableEq

/-- The environment variables and credential files `getAuthClient` probes.
`gacFile` is the document at the `GOOGLE_APPLICATION_CREDENTIALS` path
(absent also covers the variable being unset or the file missing); it is
read by both the ADC and the service-account readers. -/
structure World where
  envAccessToken : Option String
  envRefreshToken : Option String
  envClientId : Option String
  envClientSecret : Option String
  svcJsonEnv : FileState
  gacFile : FileState
  adcFile : FileState
  ga4TokensFile : FileState
  ga4CredsFile : FileState
  credFolderFile : FileState
  sharedTokenFile : FileState
  gtmTokenFile : FileState
deriving DecidableEq

/-- `OAuthTokens` of the source. -/
structure OAuthTokens where
  access_token : Option String
  refresh_token : String
  client_id : String
  client_secret : String
  expiry_date : Option Int
deriving DecidableEq

/-- `ADCCredentials` of the source (the `type` field has already been
checked to be `authorized_user`). -/
structure ADCCredentials where
  client_id : String
  client_secret : String
  refresh_token : String
deriving DecidableEq

/-- `ServiceAccountCredentials`, restricted to the fields the client
construction uses. -/
structure ServiceAccountCredentials where
  client_email : String
  private_key : String
deriving DecidableEq

/-- `getOAuthTokensFromEnv`: all four variables must be truthy. -/
def getOAuthTokensFromEnv (w : World) : Option OAuthTokens :=
  if truthyS w.envAccessToken ∧ truthyS w.envRefreshToken ∧ truthyS w.envClientId
      ∧ truthyS w.envClientSecret then
    some ⟨w.envAccessToken, (w.envRefreshToken).getD "", (w.envClientId).getD "",
      (w.envClientSecret).getD "", none⟩
  else none

/-- `getAccessTokenOnlyFromEnv`: the access-token variable is truthy but the
full refresh-capable triple is not. -/
def getAccessTokenOnlyFromEnv (w : World) : Option String :=
  if truthyS w.envAccessToken
      ∧ ¬ (truthyS w.envRefreshToken ∧ truthyS w.envClientId ∧ truthyS w.envClientSecret) then
    w.envAccessToken
  else none

/-- `getOAuthTokensFromFile`: `~/.ga4-mcp/tokens.json` parses with truthy
`refresh_token`, `client_id` and `client_secret` (the cast keeps
`access_token` and `expiry_date` as found). -/
def getOAuthTokensFromFile (w : World) : Option OAuthTokens :=
  match w.ga4TokensFile with
  | .parsed j =>
    if truthyS j.refresh_token ∧ truthyS j.client_id ∧ truthyS j.client_secret then
      some ⟨j.access_token, j.refresh_token.getD "", j.client_id.getD "",
        j.client_secret.getD "", j.expiry_date⟩
    else none
  | _ => none

/-- The ADC shape check of `getADCCredentials` on one document. -/
def adcShape : FileState → Option ADCCredentials
  | .parsed j =>
    if j.type = some "authorized_user" ∧ truthyS j.refresh_token ∧ truthyS j.client_id
        ∧ truthyS j.client_secret then
      some ⟨j.client_id.getD "", j.client_secret.getD "", j.refresh_token.getD ""⟩
    else none
  | _ => none

/-- `getADCCredentials`: the `GOOGLE_APPLICATION_CREDENTIALS` document
first, then the fixed gcloud ADC path. -/
def getADCCredentials (w : World) : Option ADCCredentials :=
  match adcShape w.gacFile with
  | some c => some c
  | none => adcShape w.adcFile

/-- The service-account shape check on one document. -/
def saShape : FileState → Option ServiceAccountCredentials
  | .parsed j =>
    if truthyS j.client_email ∧ truthyS j.private_key then
      some ⟨j.client_email.getD "", j.private_key.getD ""⟩
    else none
  | _ => none

/-- `getServiceAccountCredentials`: inline env JSON, then the
`GOOGLE_APPLICATION_CREDENTIALS` document, then
`~/.ga4-mcp/credentials.json`, then the first `.json` file of the
`Credential` folder. -/
def getServiceAccountCredentials (w : World) : Option ServiceAccountCredentials :=
  match saShape w.svcJsonEnv with
  | some c => some c
  | none =>
  match saShape w.gacFile with
  | some c => some c
  | none =>
  match saShape w.ga4CredsFile with
  | some c => some c
  | none => saShape w.credFolderFile

/-- Priority 3 of `getAccessTokenOnlyFromFile`: `~/.ga4-mcp/tokens.json`,
only when that file lacks the full OAuth triple (to avoid shadowing the
full-OAuth file source). -/
def accessTokenFromGa4File (w : World) : Option String :=
  match w.ga4TokensFile with
  | .parsed j =>
    if truthyS j.access_token
        ∧ ¬ (truthyS j.refresh_token ∧ truthyS j.client_id ∧ truthyS j.client_secret) then
      j.access_token
    else none
  | _ => none

/-- Priority 2 of `getAccessTokenOnlyFromFile`: the legacy GTM token file
(needs only a truthy `access_token`), else fall to the GA4 token file. -/
def accessTokenFromGtmFile (w : World) : Option String :=
  match w.gtmTokenFile with
  | .parsed j =>
    if truthyS j.access_token then j.access_token else accessTokenFromGa4File w
  | _ => accessTokenFromGa4File w

/-- `getAccessTokenOnlyFromFile`: shared Claude token file, then the legacy
GTM token file, then `~/.ga4-mcp/tokens.json`. -/
def getAccessTokenOnlyFromFile (w : World) : Option String :=
  match w.sharedTokenFile with
  | .parsed j =>
    if truthyS j.access_token then j.access_token else accessTokenFromGtmFile w
  | _ => accessTokenFromGtmFile w

/-- The credentials object returned by a successful `refreshAccessToken`
grant (the refresh outcome is an explicit input of the model; `none`
models the grant throwing). -/
structure RefreshCreds where
  access_token : Option String
  refresh_token : Option String
  expiry_date : Option Int
deriving DecidableEq

/-- The credential state held by an `oauth2Client`. -/
structure OAuthClientCreds where
  access_token : Option String
  refresh_token : Option String
  expiry_date : Option Int
deriving DecidableEq

/-- Resolution errors: `noCredentialFound` from the end of `getAuthClient`,
`refreshFailed` with the thrown message from the refresh branches. -/
inductive AuthError where
  | noCredentialFound
  | refreshFailed (msg : String)
deriving DecidableEq

/-- The path of the per-product token file `~/.ga4-mcp/tokens.json`, the
only file `createOAuthClient` ever writes. -/
def ga4TokenPath : String := "~/.ga4-mcp/tokens.json"

/-- The outcome of `createOAuthClient`: the client's final credentials, how
many refresh grants were performed, and the file writes performed (path
and the token document written). -/
structure OAuthClientResult where
  credentials : OAuthClientCreds
  refreshes : Nat
  writes : List (String × OAuthTokens)
deriving DecidableEq

/-- The pure core of `createOAuthClient`.  `expiryDate := expiry_date || 0`;
only a truthy expiry below `now + 60000` triggers the refresh grant.  On
grant success the refreshed credentials replace the client's and the
updated token document (spread of the input with `access_token` and
`expiry_date` overridden through `||` defaults) is written to
`~/.ga4-mcp/tokens.json`; on grant failure the function throws
re-authentication guidance. -/
def createOAuthClient (tokens : OAuthTokens) (now : Int)
    (refreshOutcome : Option RefreshCreds) : Except AuthError OAuthClientResult :=
  let initial : OAuthClientCreds :=
    ⟨tokens.access_token, some tokens.refresh_token, tokens.expiry_date⟩
  let expiryDate := tokens.expiry_date.getD 0
  if expiryDate ≠ 0 ∧ expiryDate < now + 60000 then
    match refreshOutcome with
    | none => .error (.refreshFailed "Failed to refresh OAuth token. Please re-authenticate.")
    | some rc =>
      let updatedTokens : OAuthTokens :=
        { tokens with
          access_token := orTruthyS rc.access_token tokens.access_token
          expiry_date := if truthyN rc.expiry_date then rc.expiry_date else none }
      .ok ⟨⟨rc.access_token, rc.refresh_token, rc.expiry_date⟩, 1,
        [(ga4TokenPath, updatedTokens)]⟩
  else
    .ok ⟨initial, 0, []⟩

/-- The pure core of `createADCClient`: the refresh grant is unconditional;
on failure the function throws gcloud re-login guidance, on success the
client carries the refreshed credentials. -/
def createADCClient (creds : ADCCredentials) (refreshOutcome : Option RefreshCreds) :
    Except AuthError OAuthClientCreds :=
  match refreshOutcome with
  | none => .error (.refreshFailed
      "Failed to refresh ADC token. Please run: gcloud auth application-default login --scopes=https://www.googleapis.com/auth/analytics.readonly")
  | some rc =>
    let _ := creds
    .ok ⟨rc.access_token, rc.refresh_token, rc.expiry_date⟩

/-- The client value `getAuthClient` resolves to, tagged by how it was
built and carrying exactly the payload of the source it came from
(`createServiceAccountClient`'s `authorize()` and the JWT internals are
outside the model and assumed to succeed). -/
inductive AuthClient where
  | oauth (res : OAuthClientResult)
  | adcClient (creds : ADCCredentials) (clientCreds : OAuthClientCreds)
  | jwt (email : String) (key : String)
  | tokenOnly (token : String)
deriving DecidableEq

/-- The pure core of `getAuthClient`: the six-step priority chain, each
step building its client from exactly the payload its reader returned. -/
def getAuthClient (w : World) (now : Int) (refreshOutcome : Option RefreshCreds) :
    Except AuthError AuthClient :=
  match getOAuthTokensFromEnv w with
  | some envTokens => (createOAuthClient envTokens now refreshOutcome).map .oauth
  | none =>
  match getOAuthTokensFromFile w with
  | some fileTokens => (createOAuthClient fileTokens now refreshOutcome).map .oauth
  | none =>
  match getADCCredentials w with
  | some adcCreds => (createADCClient adcCreds refreshOutcome).map (AuthClient.adcClient adcCreds)
  | none =>
  match getServiceAccountCredentials w with
  | some serviceAccount => .ok (.jwt serviceAccount.client_email serviceAccount.private_key)
  | none =>
  match getAccessTokenOnlyFromEnv w with
  | some accessToken => .ok (.tokenOnly accessToken)
  | none =>
  match getAccessTokenOnlyFromFile w with
  | some accessToken => .ok (.tokenOnly accessToken)
  | none => .error .noCredentialFound

/-! ### Declarative resolver (from the specification)

A second definition, following the specification's words: an ordered list
of source probes, the first probe that resolves wins, and the client is
built from that single payload.  Comparing `getAuthClient` against it
settles the priority-order claim. -/

/-- A resolved credential payload, tagged by its kind. -/
inductive ResolvedCred where
  | fullOAuth (t : OAuthTokens)
  | adc (c : ADCCredentials)
  | serviceAccount (c : ServiceAccountCredentials)
  | accessToken (token : String)
deriving DecidableEq

/-- The six source probes, in the documented priority order. -/
def probeList (w : World) : List (Option ResolvedCred) :=
  [ (getOAuthTokensFromEnv w).map .fullOAuth,
    (getOAuthTokensFromFile w).map .fullOAuth,
    (getADCCredentials w).map .adc,
    (getServiceAccountCredentials w).map .serviceAccount,
    (getAccessTokenOnlyFromEnv w).map .accessToken,
    (getAccessTokenOnlyFromFile w).map .accessToken ]

/-- The first source that resolves, if any. -/
def firstResolved (w : World) : Option ResolvedCred :=
  (probeList w).findSome? id

/-- Build a client from a single resolved payload. -/
def buildFromCred (now : Int) (refreshOutcome : Option RefreshCreds) :
    ResolvedCred → Except AuthError AuthClient
  | .fullOAuth t => (createOAuthClient t now refreshOutcome).map .oauth
  | .adc c => (createADCClient c refreshOutcome).map (AuthClient.adcClient c)
  | .serviceAccount c => .ok (.jwt c.client_email c.private_key)
  | .accessToken token => .ok (.tokenOnly token)

/-- The specification's resolver: first resolving source wins; with no
resolving source, fail with `noCredentialFound`. -/
def resolveSpec (w : World) (now : Int) (refreshOutcome : Option RefreshCreds) :
    Except AuthError AuthClient :=
  match firstResolved w with
  | some c => buildFromCred now refreshOutcome c
  | none => .error .noCredentialFound

/-- The refresh trigger of `createOAuthClient`: a truthy stored expiry
below `now + 60000`. -/
def needsRefresh (t : OAuthTokens) (now : Int) : Prop :=
  t.expiry_date.getD 0 ≠ 0 ∧ t.expiry_date.getD 0 < now + 60000

instance (t : OAuthTokens) (now : Int) : Decidable (needsRefresh t now) := by
  unfold needsRefresh; infer_instance

/-! ## Client cache with invalidation -/

/-- Which of the three fingerprint candidate files supplied the
fingerprint. -/
inductive TokenPath where
  | shared
  | gtm
  | ga4
deriving DecidableEq

/-- Observability of one candidate token file: missing, existing but with
`statSync` throwing, or existing with a modification time. -/
inductive MtState where
  | absent
  | statError
  | present (mtime : Int)
deriving DecidableEq

/-- The three fingerprint candidate files of `getTokenFileMtime`. -/
structure TokenFs where
  shared : MtState
  gtm : MtState
  ga4 : MtState
deriving DecidableEq

/-- `getTokenFileMtime`: the `(mtime, path)` of the first candidate that
exists and stats cleanly, in the order shared > GTM > GA4; `statSync`
failures fall through to the next candidate, as does absence. -/
def getTokenFileMtime (fs : TokenFs) : Option (Int × TokenPath) :=
  match fs.shared with
  | .present m => some (m, .shared)
  | _ =>
  match fs.gtm with
  | .present m => some (m, .gtm)
  | _ =>
  match fs.ga4 with
  | .present m => some (m, .ga4)
  | _ => none

/-- `AuthMode` of the source. -/
inductive AuthMode where
  | oauth
  | adc
  | service_account
  | accessToken
deriving DecidableEq

/-- The module-level mutable cache of `auth.ts` (clients abstracted as
numeric handles; their construction is outside this model). -/
structure CacheState where
  cachedAdminClient : Option Nat
  cachedDataClient : Option Nat
  cachedAuthMode : Option AuthMode
  cachedEmail : Option String
  cachedTokenMtime : Option Int
  cachedTokenPath : Option TokenPath
deriving DecidableEq

/-- `checkAndInvalidateCache`: when a fingerprint exists and was previously
observed, a differing `(mtime, path)` clears all four cached values; the
observed fingerprint is then updated.  With no fingerprint the state is
untouched. -/
def checkAndInvalidateCache (fs : TokenFs) (st : CacheState) : CacheState :=
  match getTokenFileMtime fs with
  | some (mtime, path) =>
    let st1 :=
      if st.cachedTokenMtime ≠ none ∧ st.cachedTokenPath ≠ none then
        if st.cachedTokenMtime ≠ some mtime ∨ st.cachedTokenPath ≠ some path then
          { st with
            cachedAdminClient := none
            cachedDataClient := none
            cachedAuthMode := none
            cachedEmail := none }
        else st
      else st
    { st1 with cachedTokenMtime := some mtime, cachedTokenPath := some path }
  | none => st

/-- The cache discipline of `getAnalyticsAdminClient`: run the invalidation
check, return the surviving cached client if any, otherwise build a fresh
one (`freshClient` abstracts `google.analyticsadmin({... getAuthClient})`)
and cache it. -/
def getAnalyticsAdminClient (fs : TokenFs) (st : CacheState) (freshClient : Nat) :
    Nat × CacheState :=
  let st1 := checkAndInvalidateCache fs st
  match st1.cachedAdminClient with
  | some c => (c, st1)
  | none => (freshClient, { st1 with cachedAdminClient := some freshClient })

/-- The cache discipline of `getAnalyticsDataClient`, same shape over the
data-client slot. -/
def getAnalyticsDataClient (fs : TokenFs) (st : CacheState) (freshClient : Nat) :
    Nat × CacheState :=
  let st1 := checkAndInvalidateCache fs st
  match st1.cachedDataClient with
  | some c => (c, st1)
  | none => (freshClient, { st1 with cachedDataClient := some freshClient })

/-! ## Lemmas about the validation engine -/

/-- The registered-parameter list a validation run queries. -/
def registeredParamsOf (dims : List DimensionMeta) (events : List GTMEventConfig) :
    List String :=
  (allParametersOf events).filter (fun p => p ∈ registeredDimensionsOf dims)

theorem step3Aux_apiCalls (query : String → Except Unit (List ReportRow))
    (ps : List String) : ∀ acc : Step3Result,
    (step3Aux query acc ps).apiCalls = acc.apiCalls + ps.countP (fun p => (query p).isOk) := by
  induction ps with
  | nil => intro acc; simp [step3Aux]
  | cons param rest ih =>
    intro acc
    cases h : query param with
    | error e =>
      simp [step3Aux, h, ih, List.countP_cons, Except.isOk, Except.toBool]
    | ok rows =>
      simp [step3Aux, h, ih, List.countP_cons, Except.isOk, Except.toBool]
      omega

theorem step3Aux_parameterData (query : String → Except Unit (List ReportRow))
    (ps : List String) (p : String) : ∀ acc : Step3Result,
    (step3Aux query acc ps).parameterData p =
      if p ∈ ps then
        match query p with
        | .ok rows => some (aggregateRows rows)
        | .error _ => acc.parameterData p
      else acc.parameterData p := by
  induction ps with
  | nil => intro acc; simp [step3Aux]
  | cons param rest ih =>
    intro acc
    cases h : query param with
    | error e =>
      simp only [step3Aux, h]
      rw [ih acc]
      by_cases hp : p = param
      · subst hp
        simp [h, List.mem_cons]
      · simp [List.mem_cons, hp]
    | ok rows =>
      simp only [step3Aux, h]
      rw [ih]
      by_cases hp : p = param
      · subst hp
        by_cases hr : p ∈ rest
        · simp [hr, List.mem_cons, h]
        · simp [hr, List.mem_cons, h]
      · simp [List.mem_cons, hp]

theorem validateGTMParameters_details_eq (dims : List DimensionMeta)
    (events : List GTMEventConfig) (query : String → Except Unit (List ReportRow)) :
    (validateGTMParameters dims events query).details =
      events.flatMap (fun e => e.parameters.map
        (classifyPair (registeredDimensionsOf dims)
          (step3 query (registeredParamsOf dims events)).parameterData e.eventName)) := by
  simp [validateGTMParameters, registeredParamsOf]

theorem validateGTMParameters_apiCalls_eq (dims : List DimensionMeta)
    (events : List GTMEventConfig) (query : String → Except Unit (List ReportRow)) :
    (validateGTMParameters dims events query).apiCalls =
      1 + (registeredParamsOf dims events).countP (fun p => (query p).isOk) := by
  simp [validateGTMParameters, step3, step3Aux_apiCalls, registeredParamsOf]

theorem mem_validate_details (dims : List DimensionMeta) (events : List GTMEventConfig)
    (query : String → Except Unit (List ReportRow)) (r : ValidationResult) :
    r ∈ (validateGTMParameters dims events query).details ↔
      ∃ e ∈ events, ∃ p ∈ e.parameters,
        r = classifyPair (registeredDimensionsOf dims)
              (step3 query (registeredParamsOf dims events)).parameterData e.eventName p := by
  rw [validateGTMParameters_details_eq]
  simp only [List.mem_flatMap, List.mem_map]
  constructor
  · rintro ⟨e, he, p, hp, rfl⟩
    exact ⟨e, he, p, hp, rfl⟩
  · rintro ⟨e, he, p, hp, rfl⟩
    exact ⟨e, he, p, hp, rfl⟩

theorem classifyPair_of_not_registered (registeredDims : List String)
    (pd : String → Option (String → Int)) (ev p : String)
    (h : p ∉ registeredDims) :
    classifyPair registeredDims pd ev p = ⟨ev, p, .not_registered, none⟩ := by
  simp [classifyPair, h]

theorem classifyPair_of_collected (registeredDims : List String)
    (pd : String → Option (String → Int)) (ev p : String)
    (h : p ∈ registeredDims) (hc : 0 < observedCount pd p ev) :
    classifyPair registeredDims pd ev p = ⟨ev, p, .collected, some (observedCount pd p ev)⟩ := by
  simp [classifyPair, h, hc]

theorem classifyPair_of_not_collected (registeredDims : List String)
    (pd : String → Option (String → Int)) (ev p : String)
    (h : p ∈ registeredDims) (hc : ¬ 0 < observedCount pd p ev) :
    classifyPair registeredDims pd ev p = ⟨ev, p, .not_collected, some 0⟩ := by
  simp [classifyPair, h, hc]

theorem classifyPair_parameter (registeredDims : List String)
    (pd : String → Option (String → Int)) (ev p : String) :
    (classifyPair registeredDims pd ev p).parameter = p := by
  by_cases hp : p ∈ registeredDims
  · by_cases hc : 0 < observedCount pd p ev
    · rw [classifyPair_of_collected _ _ _ _ hp hc]
    · rw [classifyPair_of_not_collected _ _ _ _ hp hc]
  · rw [classifyPair_of_not_registered _ _ _ _ hp]

theorem countP_status_partition (l : List ValidationResult) :
    l.countP (fun r => r.status = VStatus.collected)
      + l.countP (fun r => r.status = VStatus.not_collected)
      + l.countP (fun r => r.status = VStatus.not_registered) = l.length := by
  induction l with
  | nil => simp
  | cons r t ih =>
    simp only [List.countP_cons, List.length_cons]
    cases hs : r.status <;> simp [hs] <;> omega

/-! ## Claim theorems: validation engine -/

/-- C1: for every validation input of `N` events over `P` distinct
parameter names of which `R` are registered custom dimensions in the
fetched metadata (and with the per-parameter report queries succeeding),
`validateGTMParameters` reports `apiCalls = 1 + R`, regardless of the
number of events and of duplicate parameter names across events: the
theorem quantifies over arbitrary event lists, and `R` is the length of
the deduplicated registered-parameter list. -/
theorem validate_apiCalls_one_plus_R (dims : List DimensionMeta)
    (events : List GTMEventConfig) (query : String → Except Unit (List ReportRow))
    (h : ∀ p ∈ registeredParamsOf dims events, (query p).isOk) :
    (validateGTMParameters dims events query).apiCalls
      = 1 + (registeredParamsOf dims events).length := by
  rw [validateGTMParameters_apiCalls_eq, List.countP_eq_length.mpr h]

/-- Witness for C1: two events sharing the registered parameter `color`
(plus an unregistered `foo`) yield `apiCalls = 1 + 1`. -/
theorem validate_apiCalls_one_plus_R_witness :
    (validateGTMParameters [⟨true, some "customEvent:color"⟩]
        [⟨"login", ["color", "foo"]⟩, ⟨"signup", ["color"]⟩]
        (fun _ => .ok [])).apiCalls = 2 := by
  rw [validate_apiCalls_one_plus_R [⟨true, some "customEvent:color"⟩]
    [⟨"login", ["color", "foo"]⟩, ⟨"signup", ["color"]⟩]
    (fun _ => .ok []) (fun p _ => rfl)]
  rfl

/-- C2: every `(event, parameter)` pair in the returned details is
classified `not_registered` exactly when the parameter is absent from the
registered custom-dimension set; otherwise `collected` with the aggregated
observed count when that count is positive, and `not_collected` with count
0 when it is not — never `not_registered` for a registered parameter. -/
theorem validate_classification (dims : List DimensionMeta)
    (events : List GTMEventConfig) (query : String → Except Unit (List ReportRow))
    (r : ValidationResult) (hr : r ∈ (validateGTMParameters dims events query).details) :
    (r.status = VStatus.not_registered ↔ r.parameter ∉ registeredDimensionsOf dims)
    ∧ (r.parameter ∈ registeredDimensionsOf dims →
        (0 < observedCount (step3 query (registeredParamsOf dims events)).parameterData
              r.parameter r.eventName →
          r.status = VStatus.collected
          ∧ r.count = some (observedCount
              (step3 query (registeredParamsOf dims events)).parameterData
              r.parameter r.eventName))
        ∧ (¬ 0 < observedCount (step3 query (registeredParamsOf dims events)).parameterData
              r.parameter r.eventName →
          r.status = VStatus.not_collected ∧ r.count = some 0)) := by
  obtain ⟨e, _, p, _, rfl⟩ := (mem_validate_details dims events query r).mp hr
  by_cases hp : p ∈ registeredDimensionsOf dims
  · by_cases hc : 0 < observedCount
        (step3 query (registeredParamsOf dims events)).parameterData p e.eventName
    · rw [classifyPair_of_collected _ _ _ _ hp hc]
      simp [hp, hc]
    · rw [classifyPair_of_not_collected _ _ _ _ hp hc]
      simp [hp, hc]
  · rw [classifyPair_of_not_registered _ _ _ _ hp]
    simp [hp]

/-- Witness for C2: in a concrete run, the pair `(signup, color)` of a
registered parameter with a zero aggregate is classified `not_collected`
with count 0, not `not_registered`. -/
theorem validate_classification_witness :
    (⟨"signup", "color", VStatus.not_collected, some 0⟩ : ValidationResult)
      ∈ (validateGTMParameters [⟨true, some "customEvent:color"⟩]
          [⟨"signup", ["color"]⟩]
          (fun _ => .ok [⟨[some "login", some "red"], [some 5]⟩])).details
    ∧ ((⟨"signup", "color", VStatus.not_collected, some 0⟩ : ValidationResult).status
          = VStatus.not_registered
        ↔ ("color" : String) ∉ registeredDimensionsOf [⟨true, some "customEvent:color"⟩]) := by
  refine ⟨by decide, ?_⟩
  exact (validate_classification [⟨true, some "customEvent:color"⟩]
    [⟨"signup", ["color"]⟩]
    (fun _ => .ok [⟨[some "login", some "red"], [some 5]⟩])
    ⟨"signup", "color", VStatus.not_collected, some 0⟩ (by decide)).1

/-- C9: when the report query for a registered parameter fails, the batch
is not aborted: the summary is still produced, every pairing of the failed
parameter is classified `not_collected` with count 0 (never an error
verdict, never `not_registered`), successful parameters keep their
aggregated data, and the call counter counts exactly the metadata call
plus each successful query. -/
theorem validate_query_failure (dims : List DimensionMeta)
    (events : List GTMEventConfig) (query : String → Except Unit (List ReportRow))
    (p₀ : String) (hreg : p₀ ∈ registeredParamsOf dims events)
    (hfail : query p₀ = .error ()) :
    (∀ r ∈ (validateGTMParameters dims events query).details,
        r.parameter = p₀ → r.status = VStatus.not_collected ∧ r.count = some 0)
    ∧ (validateGTMParameters dims events query).apiCalls
        = 1 + (registeredParamsOf dims events).countP (fun p => (query p).isOk)
    ∧ (∀ q ∈ registeredParamsOf dims events, ∀ rows, query q = .ok rows →
        (step3 query (registeredParamsOf dims events)).parameterData q
          = some (aggregateRows rows)) := by
  have hpd : (step3 query (registeredParamsOf dims events)).parameterData p₀ = none := by
    rw [step3, step3Aux_parameterData]
    simp [hreg, hfail]
  refine ⟨?_, validateGTMParameters_apiCalls_eq dims events query, ?_⟩
  · intro r hr hrp
    have hp₀reg : p₀ ∈ registeredDimensionsOf dims := by
      have h' : p₀ ∈ allParametersOf events ∧ p₀ ∈ registeredDimensionsOf dims := by
        simpa [registeredParamsOf] using hreg
      exact h'.2
    obtain ⟨e, _, p, _, rfl⟩ := (mem_validate_details dims events query r).mp hr
    have hpp : p = p₀ := by
      rw [classifyPair_parameter] at hrp; exact hrp
    subst hpp
    rw [classifyPair_of_not_collected _ _ _ _ hp₀reg (by simp [observedCount, hpd])]
    exact ⟨rfl, rfl⟩
  · intro q hq rows hrows
    rw [step3, step3Aux_parameterData]
    simp [hq, hrows]

/-- Witness for C9: with the query for `color` failing, the pair
`(login, color)` resolves `not_collected` with count 0. -/
theorem validate_query_failure_witness :
    ((⟨"login", "color", VStatus.not_collected, some 0⟩ : ValidationResult).status
        = VStatus.not_collected
      ∧ (⟨"login", "color", VStatus.not_collected, some 0⟩ : ValidationResult).count
        = some 0) := by
  have h := (validate_query_failure [⟨true, some "customEvent:color"⟩]
    [⟨"login", ["color"]⟩] (fun _ => .error ()) "color"
    (by decide) rfl).1
  exact h ⟨"login", "color", VStatus.not_collected, some 0⟩ (by decide) rfl

/-- C10: the counters of every returned summary partition the details:
`collected + notCollected + notRegistered` equals the number of detail
records, which equals the total number of `(event, parameter)` pairs in
the input counting duplicates; and each record carries a positive count
exactly when `collected`, count 0 exactly when `not_collected`, and no
count exactly when `not_registered`. -/
theorem validate_partition (dims : List DimensionMeta)
    (events : List GTMEventConfig) (query : String → Except Unit (List ReportRow)) :
    ((validateGTMParameters dims events query).collected
        + (validateGTMParameters dims events query).notCollected
        + (validateGTMParameters dims events query).notRegistered
      = (validateGTMParameters dims events query).details.length)
    ∧ (validateGTMParameters dims events query).details.length
        = (events.map (fun e => e.parameters.length)).sum
    ∧ ∀ r ∈ (validateGTMParameters dims events query).details,
        ((∃ n : Int, r.count = some n ∧ 0 < n) ↔ r.status = VStatus.collected)
        ∧ (r.count = some 0 ↔ r.status = VStatus.not_collected)
        ∧ (r.count = none ↔ r.status = VStatus.not_registered) := by
  refine ⟨?_, ?_, ?_⟩
  · have h1 : (validateGTMParameters dims events query).collected
        = (validateGTMParameters dims events query).details.countP
            (fun r => r.status = VStatus.collected) := rfl
    have h2 : (validateGTMParameters dims events query).notCollected
        = (validateGTMParameters dims events query).details.countP
            (fun r => r.status = VStatus.not_collected) := rfl
    have h3 : (validateGTMParameters dims events query).notRegistered
        = (validateGTMParameters dims events query).details.countP
            (fun r => r.status = VStatus.not_registered) := rfl
    rw [h1, h2, h3]
    exact countP_status_partition _
  · rw [validateGTMParameters_details_eq]
    simp [List.length_flatMap, Function.comp_def]
  · intro r hr
    obtain ⟨e, _, p, _, rfl⟩ := (mem_validate_details dims events query r).mp hr
    by_cases hp : p ∈ registeredDimensionsOf dims
    · by_cases hc : 0 < observedCount
          (step3 query (registeredParamsOf dims events)).parameterData p e.eventName
      · rw [classifyPair_of_collected _ _ _ _ hp hc]
        refine ⟨?_, ?_, ?_⟩ <;> simp <;> omega
      · rw [classifyPair_of_not_collected _ _ _ _ hp hc]
        refine ⟨?_, ?_, ?_⟩ <;> simp
    · rw [classifyPair_of_not_registered _ _ _ _ hp]
      refine ⟨?_, ?_, ?_⟩ <;> simp

/-- Witness for C10: the partition and the count/status correspondence on
a concrete mixed run. -/
theorem validate_partition_witness :
    ((validateGTMParameters [⟨true, some "customEvent:color"⟩]
        [⟨"login", ["color", "foo"]⟩]
        (fun _ => .ok [⟨[some "login", some "red"], [some 5]⟩])).collected
      + (validateGTMParameters [⟨true, some "customEvent:color"⟩]
          [⟨"login", ["color", "foo"]⟩]
          (fun _ => .ok [⟨[some "login", some "red"], [some 5]⟩])).notCollected
      + (validateGTMParameters [⟨true, some "customEvent:color"⟩]
          [⟨"login", ["color", "foo"]⟩]
          (fun _ => .ok [⟨[some "login", some "red"], [some 5]⟩])).notRegistered
      = (validateGTMParameters [⟨true, some "customEvent:color"⟩]
          [⟨"login", ["color", "foo"]⟩]
          (fun _ => .ok [⟨[some "login", some "red"], [some 5]⟩])).details.length)
    ∧ ((⟨"login", "color", VStatus.collected, some 5⟩ : ValidationResult).count = none
        ↔ (⟨"login", "color", VStatus.collected, some 5⟩ : ValidationResult).status
          = VStatus.not_registered) := by
  constructor
  · exact (validate_partition [⟨true, some "customEvent:color"⟩]
      [⟨"login", ["color", "foo"]⟩]
      (fun _ => .ok [⟨[some "login", some "red"], [some 5]⟩])).1
  · exact (((validate_partition [⟨true, some "customEvent:color"⟩]
      [⟨"login", ["color", "foo"]⟩]
      (fun _ => .ok [⟨[some "login", some "red"], [some 5]⟩])).2.2
      ⟨"login", "color", VStatus.collected, some 5⟩ (by decide)).2.2)

/-! ## Claim theorems: GTM export parsing -/

theorem ne_empty_of_strStartsWith_braces (s : String)
    (h : strStartsWith s "\x7b\x7b" = true) : s ≠ "" := by
  intro he
  subst he
  exact absurd h (by decide)

/-- C7 counterexample: a `gaawe` tag whose `eventName` value is the
variable reference `{{Event Var}}` and whose display name `My Tag` does
not match the `GA4 - ... - ...` convention is NOT excluded: it is emitted
with the variable reference itself as the (non-empty) event name. -/
theorem parseGTMExport_varRef_kept_counterexample :
    parseGTMExport [⟨"gaawe", some "My Tag", some
        [⟨"eventName", some "\x7b\x7bEvent Var\x7d\x7d", none⟩,
         ⟨"eventSettingsTable", none, some [⟨some [⟨"parameter", some "x"⟩]⟩]⟩]⟩]
      = [⟨"\x7b\x7bEvent Var\x7d\x7d", ["x"]⟩]
    ∧ ("\x7b\x7bEvent Var\x7d\x7d" : String) ≠ ""
    ∧ recoverFromTagName "My Tag" = none := by
  exact ⟨rfl, by decide, rfl⟩

/-- C7 (amended): for every `gaawe` tag whose `eventName` value is a
`{{...}}` variable reference and whose display name does not match the
convention, the event name is left as the variable-reference string
(which is non-empty), and the tag is emitted whenever it has at least one
collected parameter; it is excluded only when it has none. -/
theorem parseGTMExport_varRef_noMatch (t : Tag)
    (htype : t.type = "gaawe")
    (hvar : strStartsWith (eventNameValue t) "\x7b\x7b" ∧ strEndsWith (eventNameValue t) "\x7d\x7d")
    (hnomatch : recoverFromTagName (t.name.getD "") = none) :
    (extractedParams t ≠ [] →
      parseGTMExport [t] = [⟨eventNameValue t, extractedParams t⟩])
    ∧ (extractedParams t = [] → parseGTMExport [t] = []) := by
  have hne : eventNameValue t ≠ "" := ne_empty_of_strStartsWith_braces _ hvar.1
  constructor
  · intro hp
    simp [parseGTMExport, processTag, htype, hvar.1, hvar.2, hnomatch, hne, hp]
  · intro hp
    simp [parseGTMExport, processTag, htype, hvar.1, hvar.2, hnomatch, hp]

/-- A concrete `gaawe` tag with a variable-reference event name and a
display name that does not match the recovery convention. -/
def sampleVarRefTag : Tag :=
  ⟨"gaawe", some "foo", some
    [⟨"eventName", some "\x7b\x7bVar\x7d\x7d", none⟩,
     ⟨"eventSettingsTable", none, some [⟨some [⟨"parameter", some "y"⟩]⟩]⟩]⟩

/-- Witness for the amended C7. -/
theorem parseGTMExport_varRef_noMatch_witness :
    parseGTMExport [sampleVarRefTag]
      = [⟨eventNameValue sampleVarRefTag, extractedParams sampleVarRefTag⟩] := by
  exact (parseGTMExport_varRef_noMatch sampleVarRefTag rfl (by decide) rfl).1 (by decide)

/-- C8 counterexample: a tag carrying the same parameter name `x` in both
the `eventParameters` and `eventSettingsTable` encodings is emitted with
`x` twice — per-event parameter names are not deduplicated. -/
theorem parseGTMExport_duplicate_params_counterexample :
    parseGTMExport [⟨"gaawe", none, some
        [⟨"eventName", some "purchase", none⟩,
         ⟨"eventParameters", none, some [⟨some [⟨"name", some "x"⟩]⟩]⟩,
         ⟨"eventSettingsTable", none, some [⟨some [⟨"parameter", some "x"⟩]⟩]⟩]⟩]
      = [⟨"purchase", ["x", "x"]⟩]
    ∧ ¬ (["x", "x"] : List String).Nodup := by
  exact ⟨rfl, by decide⟩

theorem addUnique_nodup (l : List String) (s : String) (h : l.Nodup) :
    (addUnique l s).Nodup := by
  unfold addUnique
  split
  · exact h
  · next hs => simp [List.nodup_append, h, hs]

theorem foldl_addUnique_nodup (xs : List String) :
    ∀ acc : List String, acc.Nodup → (xs.foldl addUnique acc).Nodup := by
  induction xs with
  | nil => intro acc h; exact h
  | cons x t ih => intro acc h; exact ih _ (addUnique_nodup acc x h)

theorem allParametersOf_nodup (events : List GTMEventConfig) :
    (allParametersOf events).Nodup := by
  unfold allParametersOf
  suffices h : ∀ acc : List String, acc.Nodup →
      (events.foldl (fun acc e => e.parameters.foldl addUnique acc) acc).Nodup by
    exact h [] List.nodup_nil
  induction events with
  | nil => intro acc h; exact h
  | cons e t ih => intro acc h; exact ih _ (foldl_addUnique_nodup e.parameters acc h)

/-- C8 (amended): an emitted `GTMEventConfig` may repeat a parameter name
within one event (the three encodings are concatenated without per-event
deduplication — see the counterexample); deduplication happens across the
whole batch in `validateGTMParameters`, whose distinct-parameter list and
registered-parameter query list contain no duplicates, so each registered
parameter is queried at most once. -/
theorem validate_batch_dedup (dims : List DimensionMeta) (events : List GTMEventConfig) :
    (allParametersOf events).Nodup ∧ (registeredParamsOf dims events).Nodup :=
  ⟨allParametersOf_nodup events, (allParametersOf_nodup events).filter _⟩

/-! ## Claim theorems: credential resolution -/

/-- C3: for every environment/filesystem state, `getAuthClient` equals the
declarative first-match resolver over the six sources in the documented
priority order (env full OAuth, file full OAuth, ADC, service account,
env bare access token, file bare access token): the first resolving
source supplies the entire payload the client is built from, a
lower-priority source is never used when a higher one resolves, and
fields from different sources are never combined. -/
theorem getAuthClient_priority_order (w : World) (now : Int)
    (ro : Option RefreshCreds) :
    getAuthClient w now ro = resolveSpec w now ro := by
  unfold getAuthClient resolveSpec firstResolved probeList
  cases h1 : getOAuthTokensFromEnv w <;>
    cases h2 : getOAuthTokensFromFile w <;>
      cases h3 : getADCCredentials w <;>
        cases h4 : getServiceAccountCredentials w <;>
          cases h5 : getAccessTokenOnlyFromEnv w <;>
            cases h6 : getAccessTokenOnlyFromFile w <;>
              simp [List.findSome?_cons, List.findSome?_nil, buildFromCred]

/-- The OAuth refresh-failure branch of `createOAuthClient`. -/
theorem createOAuthClient_refreshFailed (t : OAuthTokens) (now : Int)
    (h : needsRefresh t now) :
    createOAuthClient t now none
      = .error (.refreshFailed "Failed to refresh OAuth token. Please re-authenticate.") := by
  obtain ⟨h1, h2⟩ := h
  simp [createOAuthClient, h1, h2]

/-- C6: whenever the refresh grant fails (`refreshOutcome = none`) while
the resolving source is a full-OAuth credential needing refresh or an ADC
credential, `getAuthClient` fails with the re-authentication
`refreshFailed` error and does not fall through, even in states where a
lower-priority source (service account or bare access token) would
resolve. -/
theorem getAuthClient_refresh_failure (w : World) (now : Int)
    (hfirst :
      (∃ t, getOAuthTokensFromEnv w = some t ∧ needsRefresh t now)
      ∨ (getOAuthTokensFromEnv w = none
          ∧ ∃ t, getOAuthTokensFromFile w = some t ∧ needsRefresh t now)
      ∨ (getOAuthTokensFromEnv w = none ∧ getOAuthTokensFromFile w = none
          ∧ (getADCCredentials w).isSome))
    (_hlower : (getServiceAccountCredentials w).isSome
      ∨ (getAccessTokenOnlyFromEnv w).isSome
      ∨ (getAccessTokenOnlyFromFile w).isSome) :
    ∃ msg, getAuthClient w now none = .error (.refreshFailed msg) := by
  rcases hfirst with ⟨t, ht, hn⟩ | ⟨h1, t, ht, hn⟩ | ⟨h1, h2, h3⟩
  · exact ⟨"Failed to refresh OAuth token. Please re-authenticate.",
      by simp [getAuthClient, ht, createOAuthClient_refreshFailed t now hn, Except.map]⟩
  · exact ⟨"Failed to refresh OAuth token. Please re-authenticate.",
      by simp [getAuthClient, h1, ht, createOAuthClient_refreshFailed t now hn, Except.map]⟩
  · obtain ⟨c, hc⟩ := Option.isSome_iff_exists.mp h3
    exact ⟨"Failed to refresh ADC token. Please run: gcloud auth application-default login --scopes=https://www.googleapis.com/auth/analytics.readonly",
      by simp [getAuthClient, h1, h2, hc, createADCClient, Except.map]⟩

/-- Witness for C6: file-sourced full OAuth with a stale expiry, a legacy
GTM access-token file available as a lower-priority source, and a failing
refresh grant. -/
theorem getAuthClient_refresh_failure_witness :
    ∃ msg,
      getAuthClient
        { envAccessToken := none, envRefreshToken := none, envClientId := none
          envClientSecret := none, svcJsonEnv := .absent, gacFile := .absent
          adcFile := .absent
          ga4TokensFile := .parsed ⟨some "at", some "rt", some "ci", some "cs",
            some 1, none, none, none⟩
          ga4CredsFile := .absent, credFolderFile := .absent
          sharedTokenFile := .absent
          gtmTokenFile := .parsed ⟨some "tok", none, none, none, none, none, none, none⟩ }
        1000000 none
      = .error (.refreshFailed msg) := by
  exact getAuthClient_refresh_failure _ 1000000
    (Or.inr (Or.inl ⟨rfl, _, rfl, by decide⟩))
    (Or.inr (Or.inr (by decide)))

/-- C5 counterexample: a full-OAuth credential whose stored expiry is 0
(the epoch, hence far below `now + 60s`) triggers neither a refresh grant
nor a token-file write, because the source guards the refresh with the
truthiness of `expiry_date` (`if (expiryDate && ...)`), under which 0 is
falsy.  The claim "expiry < now + 60s always triggers exactly one refresh
and one write" therefore fails at this input. -/
theorem createOAuthClient_zero_expiry_counterexample :
    ((0 : Int) < 1000000 + 60000)
    ∧ createOAuthClient ⟨some "at", "rt", "ci", "cs", some 0⟩ 1000000
        (some ⟨some "at2", some "rt", some 5000000⟩)
      = .ok ⟨⟨some "at", some "rt", some 0⟩, 0, []⟩ := by
  exact ⟨by norm_num, rfl⟩

/-- C5 (amended): a full-OAuth credential with a truthy (non-zero, present)
expiry below `now + 60s` triggers exactly one refresh grant and exactly
one write, to the per-product token file `~/.ga4-mcp/tokens.json` (the
originating file for file-sourced credentials), preserving
`refresh_token`, `client_id` and `client_secret` and updating the access
token; with an absent or zero expiry, or one at least `now + 60s`, it
triggers neither. -/
theorem createOAuthClient_refresh_policy (tokens : OAuthTokens) (now : Int)
    (rc : RefreshCreds) :
    (needsRefresh tokens now →
      ∃ res, createOAuthClient tokens now (some rc) = .ok res
        ∧ res.refreshes = 1
        ∧ ∃ wt, res.writes = [(ga4TokenPath, wt)]
            ∧ wt.refresh_token = tokens.refresh_token
            ∧ wt.client_id = tokens.client_id
            ∧ wt.client_secret = tokens.client_secret
            ∧ wt.access_token = orTruthyS rc.access_token tokens.access_token)
    ∧ (¬ needsRefresh tokens now →
      ∃ res, createOAuthClient tokens now (some rc) = .ok res
        ∧ res.refreshes = 0 ∧ res.writes = []) := by
  constructor
  · intro h
    obtain ⟨h1, h2⟩ := h
    have hres : createOAuthClient tokens now (some rc)
        = .ok ⟨⟨rc.access_token, rc.refresh_token, rc.expiry_date⟩, 1,
            [(ga4TokenPath,
              { tokens with
                access_token := orTruthyS rc.access_token tokens.access_token
                expiry_date := if truthyN rc.expiry_date then rc.expiry_date else none })]⟩ := by
      simp [createOAuthClient, h1, h2]
    exact ⟨_, hres, rfl, _, rfl, rfl, rfl, rfl, rfl⟩
  · intro h
    unfold needsRefresh at h
    have hres : createOAuthClient tokens now (some rc)
        = .ok ⟨⟨tokens.access_token, some tokens.refresh_token, tokens.expiry_date⟩, 0, []⟩ := by
      simp only [createOAuthClient]
      rw [if_neg h]
    exact ⟨_, hres, rfl, rfl⟩

/-- Witness for the amended C5: expiry 1 (stale) at `now = 1000000`
refreshes once and writes once. -/
theorem createOAuthClient_refresh_policy_witness :
    needsRefresh ⟨some "at", "rt", "ci", "cs", some 1⟩ 1000000
    ∧ ∃ res,
        createOAuthClient ⟨some "at", "rt", "ci", "cs", some 1⟩ 1000000
          (some ⟨some "at2", none, some 99⟩) = .ok res
        ∧ res.refreshes = 1
        ∧ ∃ wt, res.writes = [(ga4TokenPath, wt)]
            ∧ wt.refresh_token = "rt"
            ∧ wt.client_id = "ci"
            ∧ wt.client_secret = "cs"
            ∧ wt.access_token = orTruthyS (some "at2") (some "at") := by
  exact ⟨by decide,
    (createOAuthClient_refresh_policy ⟨some "at", "rt", "ci", "cs", some 1⟩ 1000000
      ⟨some "at2", none, some 99⟩).1 (by decide)⟩

/-! ## Claim theorems: client cache invalidation -/

/-- C4: on every call to the client getters, the fingerprint of the first
existing candidate file (shared > legacy GTM > legacy GA4) is compared to
the last observed one before a cached client may be returned.  If it
differs, all cached clients and the cached auth-mode/email state are
cleared unconditionally (the state `st` is arbitrary, so in particular
the cached auth mode need not be access-token), and the next request
returns the freshly built client rather than a cached one; if no
candidate file exists, the state is untouched and an existing cached
client is returned as is. -/
theorem cache_invalidation_policy (fs : TokenFs) (st : CacheState)
    (mt : Int) (p : TokenPath) (fresh : Nat) :
    (getTokenFileMtime fs = none →
      checkAndInvalidateCache fs st = st
      ∧ (∀ c, st.cachedAdminClient = some c → (getAnalyticsAdminClient fs st fresh).1 = c)
      ∧ (∀ c, st.cachedDataClient = some c → (getAnalyticsDataClient fs st fresh).1 = c))
    ∧ (getTokenFileMtime fs = some (mt, p) →
        st.cachedTokenMtime.isSome →
        st.cachedTokenPath.isSome →
        (st.cachedTokenMtime ≠ some mt ∨ st.cachedTokenPath ≠ some p) →
        (checkAndInvalidateCache fs st).cachedAdminClient = none
        ∧ (checkAndInvalidateCache fs st).cachedDataClient = none
        ∧ (checkAndInvalidateCache fs st).cachedAuthMode = none
        ∧ (checkAndInvalidateCache fs st).cachedEmail = none
        ∧ (getAnalyticsAdminClient fs st fresh).1 = fresh
        ∧ (getAnalyticsDataClient fs st fresh).1 = fresh) := by
  constructor
  · intro h
    have hc : checkAndInvalidateCache fs st = st := by
      simp [checkAndInvalidateCache, h]
    refine ⟨hc, ?_, ?_⟩ <;> intro c hcc <;>
      simp [getAnalyticsAdminClient, getAnalyticsDataClient, hc, hcc]
  · intro h hm hp hdiff
    have hm' : st.cachedTokenMtime ≠ none := by
      intro hx; rw [hx] at hm; exact absurd hm (by decide)
    have hp' : st.cachedTokenPath ≠ none := by
      intro hx; rw [hx] at hp; exact absurd hp (by decide)
    have hclear : checkAndInvalidateCache fs st =
        { st with
          cachedAdminClient := none
          cachedDataClient := none
          cachedAuthMode := none
          cachedEmail := none
          cachedTokenMtime := some mt
          cachedTokenPath := some p } := by
      simp [checkAndInvalidateCache, h, hm', hp', hdiff]
    refine ⟨by rw [hclear], by rw [hclear], by rw [hclear], by rw [hclear], ?_, ?_⟩
    · simp [getAnalyticsAdminClient, hclear]
    · simp [getAnalyticsDataClient, hclear]

/-- Witness for C4: an absent-files state reuses the cache; a shared-file
mtime differing from the observed one clears it and rebuilds. -/
theorem cache_invalidation_policy_witness :
    (checkAndInvalidateCache ⟨.absent, .absent, .absent⟩
        ⟨some 3, some 4, some .oauth, some "e", some 9, some .ga4⟩
      = ⟨some 3, some 4, some .oauth, some "e", some 9, some .ga4⟩)
    ∧ ((checkAndInvalidateCache ⟨.present 10, .absent, .absent⟩
          ⟨some 3, some 4, some .oauth, some "e", some 9, some .shared⟩).cachedAdminClient
        = none
      ∧ (getAnalyticsAdminClient ⟨.present 10, .absent, .absent⟩
          ⟨some 3, some 4, some .oauth, some "e", some 9, some .shared⟩ 7).1 = 7) := by
  refine ⟨?_, ?_, ?_⟩
  · exact ((cache_invalidation_policy ⟨.absent, .absent, .absent⟩
      ⟨some 3, some 4, some .oauth, some "e", some 9, some .ga4⟩ 0 .shared 7).1 rfl).1
  · exact ((cache_invalidation_policy ⟨.present 10, .absent, .absent⟩
      ⟨some 3, some 4, some .oauth, some "e", some 9, some .shared⟩ 10 .shared 7).2
      rfl (by decide) (by decide) (by decide)).1
  · exact ((cache_invalidation_policy ⟨.present 10, .absent, .absent⟩
      ⟨some 3, some 4, some .oauth, some "e", some 9, some .shared⟩ 10 .shared 7).2
      rfl (by decide) (by decide) (by decide)).2.2.2.2.1

end GA4MCP
